import Mathlib

/-!
Verification development for the Courier email library
(`src/email-styles.ts`, `src/courier.ts`, `src/types.ts`).

The TypeScript source is shallowly embedded: plain objects become
structures, `Partial<...>` objects become structures with `Option`
fields (`none` = key absent/undefined), JS object spread becomes
field-wise `Option.getD`, thrown exceptions become `Except String`,
and the opaque collaborators (mail transport, Handlebars compiler,
filesystem contents) become explicit function/data parameters.
-/

namespace Courier

/-! ## Theme data model (`types.ts` / `email-styles.ts`)

`MergedTheme` is the shape of `mergeTheme`'s result (every leaf a plain
string, no undefined leaves).  The `P`-prefixed structures embed
`Partial<ThemeConfig>`: every leaf and every group is optional. -/

structure Colors where
  text : String
  textSecondary : String
  textAlt : String
  background : String
  backgroundSubtle : String
  backgroundAlt : String
  border : String
  borderSoft : String
  accent : String
  accentHover : String
  accentMuted : String
  deriving Repr, DecidableEq

/-- Font size scale; `x2l`/`x3l` embed the JS keys `"2xl"`/`"3xl"`. -/
structure FontSize where
  xs : String
  sm : String
  base : String
  lg : String
  xl : String
  x2l : String
  x3l : String
  deriving Repr, DecidableEq

structure FontWeight where
  normal : String
  medium : String
  semibold : String
  bold : String
  black : String
  deriving Repr, DecidableEq

structure Typography where
  fontFamily : String
  fontSize : FontSize
  fontWeight : FontWeight
  lineHeight : String
  deriving Repr, DecidableEq

/-- Spacing scale; `x2l` embeds the JS key `"2xl"`. -/
structure Spacing where
  xs : String
  sm : String
  base : String
  md : String
  lg : String
  xl : String
  x2l : String
  line : String
  containerPadding : String
  deriving Repr, DecidableEq

structure Borders where
  widthThin : String
  width : String
  widthThick : String
  widthDouble : String
  deriving Repr, DecidableEq

structure Container where
  maxWidth : String
  deriving Repr, DecidableEq

structure MergedTheme where
  colors : Colors
  typography : Typography
  spacing : Spacing
  borders : Borders
  container : Container
  deriving Repr, DecidableEq

structure PColors where
  text : Option String := none
  textSecondary : Option String := none
  textAlt : Option String := none
  background : Option String := none
  backgroundSubtle : Option String := none
  backgroundAlt : Option String := none
  border : Option String := none
  borderSoft : Option String := none
  accent : Option String := none
  accentHover : Option String := none
  accentMuted : Option String := none
  deriving Repr, DecidableEq

structure PFontSize where
  xs : Option String := none
  sm : Option String := none
  base : Option String := none
  lg : Option String := none
  xl : Option String := none
  x2l : Option String := none
  x3l : Option String := none
  deriving Repr, DecidableEq

structure PFontWeight where
  normal : Option String := none
  medium : Option String := none
  semibold : Option String := none
  bold : Option String := none
  black : Option String := none
  deriving Repr, DecidableEq

structure PTypography where
  fontFamily : Option String := none
  fontSize : Option PFontSize := none
  fontWeight : Option PFontWeight := none
  lineHeight : Option String := none
  deriving Repr, DecidableEq

structure PSpacing where
  xs : Option String := none
  sm : Option String := none
  base : Option String := none
  md : Option String := none
  lg : Option String := none
  xl : Option String := none
  x2l : Option String := none
  line : Option String := none
  containerPadding : Option String := none
  deriving Repr, DecidableEq

structure PBorders where
  widthThin : Option String := none
  width : Option String := none
  widthThick : Option String := none
  widthDouble : Option String := none
  deriving Repr, DecidableEq

structure PContainer where
  maxWidth : Option String := none
  deriving Repr, DecidableEq

/-- Embeds `Partial<ThemeConfig>` (`types.ts`). -/
structure PTheme where
  colors : Option PColors := none
  typography : Option PTypography := none
  spacing : Option PSpacing := none
  borders : Option PBorders := none
  container : Option PContainer := none
  deriving Repr, DecidableEq

/-! ## Default and preset themes (`email-styles.ts` lines 77-225)

Leaf values are inlined from `EmailTokens` / `EmailColors`, exactly as
the source constants resolve them. -/

/-- `DefaultTheme` from `email-styles.ts` (lines 161-195). -/
def DefaultTheme : MergedTheme :=
  { colors :=
      { text := "#000000"
        textSecondary := "#404040"
        textAlt := "#666666"
        background := "#ffffff"
        backgroundSubtle := "#fafafa"
        backgroundAlt := "#f5f5f5"
        border := "#000000"
        borderSoft := "#d4d4d4"
        accent := "#0891b2"
        accentHover := "#0e7490"
        accentMuted := "#cffafe" }
    typography :=
      { fontFamily := "ui-monospace, \x27SFMono-Regular\x27, Monaco, Consolas, \x27Liberation Mono\x27, \x27Courier New\x27, monospace"
        fontSize :=
          { xs := "12px", sm := "14px", base := "15px", lg := "17px"
            xl := "20px", x2l := "26px", x3l := "32px" }
        fontWeight :=
          { normal := "400", medium := "500", semibold := "600"
            bold := "700", black := "800" }
        lineHeight := "1.5" }
    spacing :=
      { xs := "0.5rem", sm := "0.75rem", base := "1rem", md := "1.5rem"
        lg := "2rem", xl := "2.5rem", x2l := "3rem"
        line := "1.5rem", containerPadding := "1.5rem" }
    borders :=
      { widthThin := "1px", width := "2px", widthThick := "3px", widthDouble := "6px" }
    container := { maxWidth := "600px" } }

/-- `DarkTheme` from `email-styles.ts` (lines 207-225): its own colors,
the remaining groups shared with `DefaultTheme`. -/
def DarkTheme : MergedTheme :=
  { colors :=
      { text := "#f5f5f5"
        textSecondary := "#d4d4d4"
        textAlt := "#a0a0a0"
        background := "#0d1117"
        backgroundSubtle := "#161b22"
        backgroundAlt := "#1c2128"
        border := "#30363d"
        borderSoft := "#525252"
        accent := "#60a5fa"
        accentHover := "#3b82f6"
        accentMuted := "#1e3a5f" }
    typography := DefaultTheme.typography
    spacing := DefaultTheme.spacing
    borders := DefaultTheme.borders
    container := DefaultTheme.container }

/-! Viewing a complete theme object as a `Partial<ThemeConfig>` argument
(all keys present), as happens when `DarkTheme` is passed to
`createTheme`. -/

def Colors.toP (c : Colors) : PColors :=
  { text := some c.text, textSecondary := some c.textSecondary
    textAlt := some c.textAlt, background := some c.background
    backgroundSubtle := some c.backgroundSubtle, backgroundAlt := some c.backgroundAlt
    border := some c.border, borderSoft := some c.borderSoft
    accent := some c.accent, accentHover := some c.accentHover
    accentMuted := some c.accentMuted }

def FontSize.toP (f : FontSize) : PFontSize :=
  { xs := some f.xs, sm := some f.sm, base := some f.base, lg := some f.lg
    xl := some f.xl, x2l := some f.x2l, x3l := some f.x3l }

def FontWeight.toP (f : FontWeight) : PFontWeight :=
  { normal := some f.normal, medium := some f.medium, semibold := some f.semibold
    bold := some f.bold, black := some f.black }

def Typography.toP (t : Typography) : PTypography :=
  { fontFamily := some t.fontFamily, fontSize := some t.fontSize.toP
    fontWeight := some t.fontWeight.toP, lineHeight := some t.lineHeight }

def Spacing.toP (s : Spacing) : PSpacing :=
  { xs := some s.xs, sm := some s.sm, base := some s.base, md := some s.md
    lg := some s.lg, xl := some s.xl, x2l := some s.x2l
    line := some s.line, containerPadding := some s.containerPadding }

def Borders.toP (b : Borders) : PBorders :=
  { widthThin := some b.widthThin, width := some b.width
    widthThick := some b.widthThick, widthDouble := some b.widthDouble }

def Container.toP (c : Container) : PContainer :=
  { maxWidth := some c.maxWidth }

def MergedTheme.toP (t : MergedTheme) : PTheme :=
  { colors := some t.colors.toP, typography := some t.typography.toP
    spacing := some t.spacing.toP, borders := some t.borders.toP
    container := some t.container.toP }

/-! ## `mergeTheme` (`email-styles.ts` lines 409-430)

JS spread `{...DefaultTheme.group, ...customTheme.group}` becomes a
field-wise `Option.getD`; an absent group (`undefined`) spreads to
nothing, i.e. keeps the default group. -/

def mergeColors (p : Option PColors) : Colors :=
  let d := DefaultTheme.colors
  match p with
  | none => d
  | some c =>
    { text := c.text.getD d.text
      textSecondary := c.textSecondary.getD d.textSecondary
      textAlt := c.textAlt.getD d.textAlt
      background := c.background.getD d.background
      backgroundSubtle := c.backgroundSubtle.getD d.backgroundSubtle
      backgroundAlt := c.backgroundAlt.getD d.backgroundAlt
      border := c.border.getD d.border
      borderSoft := c.borderSoft.getD d.borderSoft
      accent := c.accent.getD d.accent
      accentHover := c.accentHover.getD d.accentHover
      accentMuted := c.accentMuted.getD d.accentMuted }

def mergeFontSize (p : Option PFontSize) : FontSize :=
  let d := DefaultTheme.typography.fontSize
  match p with
  | none => d
  | some f =>
    { xs := f.xs.getD d.xs, sm := f.sm.getD d.sm, base := f.base.getD d.base
      lg := f.lg.getD d.lg, xl := f.xl.getD d.xl
      x2l := f.x2l.getD d.x2l, x3l := f.x3l.getD d.x3l }

def mergeFontWeight (p : Option PFontWeight) : FontWeight :=
  let d := DefaultTheme.typography.fontWeight
  match p with
  | none => d
  | some f =>
    { normal := f.normal.getD d.normal, medium := f.medium.getD d.medium
      semibold := f.semibold.getD d.semibold, bold := f.bold.getD d.bold
      black := f.black.getD d.black }

/-- The `typography` clause of `mergeTheme`: the outer spread takes
`fontFamily`/`lineHeight` from the override when present, while the
explicitly re-set `fontSize`/`fontWeight` keys get one extra level of
shallow merge (`customTheme.typography?.fontSize`, etc.). -/
def mergeTypography (p : Option PTypography) : Typography :=
  let d := DefaultTheme.typography
  { fontFamily := ((p.bind PTypography.fontFamily).getD d.fontFamily)
    fontSize := mergeFontSize (p.bind PTypography.fontSize)
    fontWeight := mergeFontWeight (p.bind PTypography.fontWeight)
    lineHeight := ((p.bind PTypography.lineHeight).getD d.lineHeight) }

def mergeSpacing (p : Option PSpacing) : Spacing :=
  let d := DefaultTheme.spacing
  match p with
  | none => d
  | some s =>
    { xs := s.xs.getD d.xs, sm := s.sm.getD d.sm, base := s.base.getD d.base
      md := s.md.getD d.md, lg := s.lg.getD d.lg, xl := s.xl.getD d.xl
      x2l := s.x2l.getD d.x2l, line := s.line.getD d.line
      containerPadding := s.containerPadding.getD d.containerPadding }

def mergeBorders (p : Option PBorders) : Borders :=
  let d := DefaultTheme.borders
  match p with
  | none => d
  | some b =>
    { widthThin := b.widthThin.getD d.widthThin, width := b.width.getD d.width
      widthThick := b.widthThick.getD d.widthThick
      widthDouble := b.widthDouble.getD d.widthDouble }

def mergeContainer (p : Option PContainer) : Container :=
  let d := DefaultTheme.container
  match p with
  | none => d
  | some c => { maxWidth := c.maxWidth.getD d.maxWidth }

/-- `mergeTheme(customTheme?)` (`email-styles.ts` lines 409-430); the
argument `none` embeds an absent/undefined `customTheme`. -/
def mergeTheme (customTheme : Option PTheme) : MergedTheme :=
  match customTheme with
  | none => DefaultTheme
  | some p =>
    { colors := mergeColors p.colors
      typography := mergeTypography p.typography
      spacing := mergeSpacing p.spacing
      borders := mergeBorders p.borders
      container := mergeContainer p.container }

/-- The top-level spread `{...baseTheme, ...overrides}` inside
`createTheme`: a group key present in `overrides` replaces the base
group wholesale. -/
def spreadTop (b o : PTheme) : PTheme :=
  { colors := match o.colors with | some c => some c | none => b.colors
    typography := match o.typography with | some t => some t | none => b.typography
    spacing := match o.spacing with | some s => some s | none => b.spacing
    borders := match o.borders with | some w => some w | none => b.borders
    container := match o.container with | some c => some c | none => b.container }

/-- `createTheme(baseTheme, overrides)` (`email-styles.ts` lines 446-451). -/
def createTheme (baseTheme overrides : PTheme) : MergedTheme :=
  mergeTheme (some (spreadTop baseTheme overrides))

/-! ## CSS generation (`email-styles.ts` lines 457-815)

`cssRule` embeds the helper of lines 457-462; JS objects of CSS
properties become ordered `(key, value)` lists, since
`Object.entries` iterates string keys in insertion order.  Literal
braces of the emitted CSS are written with hex escapes. -/

def cssRule (selector : String) (properties : List (String × String)) : String :=
  let props := String.intercalate "\n"
    (properties.map (fun p => "  " ++ p.1 ++ ": " ++ p.2 ++ ";"))
  selector ++ " \x7b\n" ++ props ++ "\n\x7d"

/-- The rule list built by `generateThemedCSS` (lines 492-812) on a
complete merged theme.  The dynamic `color`/`spacing` fallback helpers
(`?? fallback`) never fire on a complete theme, so each lookup is the
theme field itself. -/
def themedRules (theme : MergedTheme) : List String :=
  [ cssRule ".email-container"
      [ ("max-width", theme.container.maxWidth)
      , ("height", "100%")
      , ("min-height", "100vh")
      , ("margin", "0 auto")
      , ("background-color", theme.colors.background)
      , ("padding", theme.spacing.containerPadding)
      , ("box-sizing", "border-box")
      , ("font-family", theme.typography.fontFamily)
      , ("font-size", theme.typography.fontSize.base)
      , ("line-height", theme.typography.lineHeight)
      , ("font-weight", theme.typography.fontWeight.normal)
      , ("text-align", "left") ]
  , cssRule ".email-heading"
      [ ("font-size", theme.typography.fontSize.x2l)
      , ("font-weight", theme.typography.fontWeight.bold)
      , ("color", theme.colors.text)
      , ("margin-bottom", theme.spacing.line)
      , ("margin-top", "0")
      , ("text-transform", "uppercase")
      , ("line-height", "1.25")
      , ("letter-spacing", "-0.01em") ]
  , cssRule ".email-subheading"
      [ ("font-size", theme.typography.fontSize.base)
      , ("font-weight", theme.typography.fontWeight.bold)
      , ("color", theme.colors.text)
      , ("margin-bottom", theme.spacing.line)
      , ("margin-top", theme.spacing.line)
      , ("text-transform", "uppercase")
      , ("line-height", "1.25") ]
  , cssRule ".email-body"
      [ ("font-size", theme.typography.fontSize.base)
      , ("color", theme.colors.text)
      , ("line-height", theme.typography.lineHeight)
      , ("margin-bottom", theme.spacing.line)
      , ("letter-spacing", "0.01em") ]
  , cssRule ".email-text-alt"
      [ ("font-size", theme.typography.fontSize.sm)
      , ("color", theme.colors.textAlt)
      , ("line-height", theme.typography.lineHeight) ]
  , cssRule ".email-text-xs"
      [ ("font-size", theme.typography.fontSize.xs)
      , ("color", theme.colors.textAlt)
      , ("line-height", theme.typography.lineHeight) ]
  , cssRule ".email-button"
      [ ("display", "inline-block")
      , ("padding", "0.875rem 1.5rem")
      , ("background-color", theme.colors.backgroundAlt)
      , ("color", theme.colors.text)
      , ("font-weight", theme.typography.fontWeight.medium)
      , ("font-size", theme.typography.fontSize.sm)
      , ("border", theme.borders.width ++ " solid " ++ theme.colors.border)
      , ("text-decoration", "none")
      , ("text-transform", "uppercase")
      , ("letter-spacing", "0.05em")
      , ("line-height", "1")
      , ("transition", "background-color 150ms ease") ]
  , cssRule ".email-button:hover"
      [ ("background-color", theme.colors.backgroundSubtle) ]
  , cssRule ".email-button-primary"
      [ ("display", "inline-block")
      , ("padding", "0.875rem 1.5rem")
      , ("background-color", theme.colors.text)
      , ("color", theme.colors.background)
      , ("font-weight", theme.typography.fontWeight.medium)
      , ("font-size", theme.typography.fontSize.sm)
      , ("border", theme.borders.width ++ " solid " ++ theme.colors.text)
      , ("text-decoration", "none")
      , ("text-transform", "uppercase")
      , ("letter-spacing", "0.05em")
      , ("line-height", "1")
      , ("transition", "background-color 150ms ease") ]
  , cssRule ".email-button-primary:hover"
      [ ("background-color", "#333333") ]
  , cssRule ".email-button-accent"
      [ ("display", "inline-block")
      , ("padding", "0.875rem 1.5rem")
      , ("background-color", theme.colors.background)
      , ("color", theme.colors.accent)
      , ("font-weight", theme.typography.fontWeight.medium)
      , ("font-size", theme.typography.fontSize.sm)
      , ("border", theme.borders.width ++ " solid " ++ theme.colors.accent)
      , ("text-decoration", "none")
      , ("text-transform", "uppercase")
      , ("letter-spacing", "0.05em")
      , ("line-height", "1")
      , ("transition", "background-color 150ms ease") ]
  , cssRule ".email-button-accent:hover"
      [ ("background-color", theme.colors.accentMuted) ]
  , cssRule ".email-link"
      [ ("color", theme.colors.text)
      , ("text-decoration", "underline")
      , ("text-decoration-thickness", theme.borders.width)
      , ("text-underline-offset", "3px") ]
  , cssRule ".email-link-accent"
      [ ("color", theme.colors.accent)
      , ("text-decoration", "underline")
      , ("text-decoration-thickness", theme.borders.width)
      , ("text-underline-offset", "3px")
      , ("text-decoration-color", theme.colors.accent) ]
  , cssRule ".email-divider"
      [ ("position", "relative")
      , ("display", "block")
      , ("margin-top", "2rem")
      , ("margin-bottom", "2rem")
      , ("border", "0")
      , ("height", theme.typography.lineHeight) ]
  , cssRule ".email-divider::after"
      [ ("content", "\x27\x27")
      , ("position", "absolute")
      , ("top", "calc(" ++ theme.typography.lineHeight ++ " / 2 - 3px)")
      , ("left", "0")
      , ("width", "100%")
      , ("height", "0")
      , ("border-top", theme.borders.widthDouble ++ " double " ++ theme.colors.border) ]
  , cssRule ".email-divider-subtle"
      [ ("margin-top", "1.5rem")
      , ("margin-bottom", "1.5rem")
      , ("border", "0")
      , ("height", "1px")
      , ("background-color", theme.colors.borderSoft) ]
  , cssRule ".email-divider-accent"
      [ ("margin-top", "1.5rem")
      , ("margin-bottom", "1.5rem")
      , ("margin-left", "0")
      , ("margin-right", "auto")
      , ("border", "0")
      , ("height", "3px")
      , ("width", "60px")
      , ("background-color", theme.colors.accent) ]
  , cssRule ".email-section"
      [ ("margin-bottom", theme.spacing.line) ]
  , cssRule ".email-section-bordered"
      [ ("margin-bottom", theme.spacing.line)
      , ("padding", theme.spacing.line)
      , ("border", theme.borders.width ++ " solid " ++ theme.colors.border) ]
  , cssRule ".email-section-hero"
      [ ("padding", "2.5rem 0")
      , ("text-align", "left")
      , ("margin-bottom", "2rem") ]
  , cssRule ".email-image-hero"
      [ ("width", "100%")
      , ("max-width", "100%")
      , ("height", "auto")
      , ("display", "block")
      , ("margin-bottom", theme.spacing.line)
      , ("border", theme.borders.width ++ " solid " ++ theme.colors.border) ]
  , cssRule ".email-image-inline"
      [ ("width", "150px")
      , ("height", "150px")
      , ("object-fit", "cover")
      , ("display", "block")
      , ("border", theme.borders.width ++ " solid " ++ theme.colors.border) ]
  , cssRule ".email-section-image-left"
      [ ("width", "100%")
      , ("margin-bottom", theme.spacing.line) ]
  , cssRule ".email-section-image-right"
      [ ("width", "100%")
      , ("margin-bottom", theme.spacing.line) ]
  , cssRule ".email-image-cell"
      [ ("width", "150px")
      , ("vertical-align", "top")
      , ("padding-right", theme.spacing.line) ]
  , cssRule ".email-section-image-right .email-image-cell"
      [ ("padding-right", "0")
      , ("padding-left", theme.spacing.line) ]
  , cssRule ".email-content-cell"
      [ ("vertical-align", "top") ]
  , cssRule ".email-footer"
      [ ("margin-top", theme.spacing.line)
      , ("padding-top", theme.spacing.line)
      , ("border-top", theme.borders.widthThick ++ " double " ++ theme.colors.border)
      , ("font-size", theme.typography.fontSize.sm)
      , ("color", theme.colors.textAlt) ]
  , cssRule ".email-code"
      [ ("font-family", theme.typography.fontFamily)
      , ("font-weight", theme.typography.fontWeight.medium)
      , ("background-color", theme.colors.backgroundAlt)
      , ("padding", "0.25rem 0.5rem")
      , ("border", "1px solid " ++ theme.colors.borderSoft) ]
  , cssRule ".email-code-lg"
      [ ("font-family", theme.typography.fontFamily)
      , ("font-weight", theme.typography.fontWeight.bold)
      , ("background-color", theme.colors.backgroundAlt)
      , ("padding", "0.5rem 0.75rem")
      , ("font-size", "24px")
      , ("letter-spacing", "0.15em")
      , ("border", "1px solid " ++ theme.colors.borderSoft) ]
  , cssRule ".email-box"
      [ ("padding", theme.spacing.line)
      , ("border", theme.borders.width ++ " solid " ++ theme.colors.border)
      , ("margin-bottom", theme.spacing.line) ]
  , cssRule ".email-box-alt"
      [ ("padding", theme.spacing.line)
      , ("background-color", theme.colors.backgroundAlt)
      , ("margin-bottom", theme.spacing.line) ]
  , cssRule ".email-box-highlight"
      [ ("padding", "1.5rem")
      , ("padding-left", "1.25rem")
      , ("border-left", "4px solid " ++ theme.colors.accent)
      , ("background-color", theme.colors.backgroundSubtle)
      , ("margin-bottom", "1.5rem") ]
  , cssRule ".email-box-success"
      [ ("padding", "1.5rem")
      , ("background-color", "#dcfce7")
      , ("border-left", "4px solid #15803d")
      , ("margin-bottom", "1.5rem") ]
  , cssRule ".email-box-warning"
      [ ("padding", "1.5rem")
      , ("background-color", "#fef3c7")
      , ("border-left", "4px solid #a16207")
      , ("margin-bottom", "1.5rem") ]
  , cssRule ".email-box-error"
      [ ("padding", "1.5rem")
      , ("background-color", "#fee2e2")
      , ("border-left", "4px solid #b91c1c")
      , ("margin-bottom", "1.5rem") ]
  , cssRule ".email-box-info"
      [ ("padding", "1.5rem")
      , ("background-color", "#e0f2fe")
      , ("border-left", "4px solid #0369a1")
      , ("margin-bottom", "1.5rem") ]
  , cssRule ".email-spacing-none"
      [ ("margin-top", "0") ]
  , cssRule ".email-spacing-xs"
      [ ("margin-top", theme.spacing.xs) ]
  , cssRule ".email-spacing-sm"
      [ ("margin-top", theme.spacing.sm) ]
  , cssRule ".email-spacing-md"
      [ ("margin-top", theme.spacing.md) ]
  , cssRule ".email-spacing-lg"
      [ ("margin-top", theme.spacing.lg) ]
  , cssRule ".email-text-center"
      [ ("text-align", "center") ]
  , cssRule ".email-logo"
      [ ("max-width", "150px")
      , ("height", "auto")
      , ("margin-bottom", "1rem") ]
  , cssRule ".email-avatar"
      [ ("width", "64px")
      , ("height", "64px")
      , ("border-radius", "50%")
      , ("margin-bottom", "1rem") ]
  ]

/-- `generateThemedCSS` on a complete merged theme: the final
`` `\n${rules.join("\n")}\n` `` of line 814. -/
def generateThemedCSS (theme : MergedTheme) : String :=
  "\n" ++ String.intercalate "\n" (themedRules theme) ++ "\n"

/-! The dynamic validation guard at the head of `generateThemedCSS`
(lines 479-484).  A theme object reaching the function untyped may have
any of the five groups absent/null (`Option`), and the argument itself
may be null/undefined or a non-object (`none`). -/

structure LooseTheme where
  colors : Option Colors := none
  typography : Option Typography := none
  spacing : Option Spacing := none
  borders : Option Borders := none
  container : Option Container := none
  deriving Repr, DecidableEq

/-- `generateThemedCSS` with its input guard: throwing is embedded as
`Except.error` carrying the thrown message. -/
def generateThemedCSSChecked (theme : Option LooseTheme) : Except String String :=
  match theme with
  | none => .error "Invalid theme configuration: theme must be an object"
  | some t =>
    match t.colors, t.typography, t.spacing, t.borders, t.container with
    | some c, some ty, some sp, some bo, some cn =>
      .ok (generateThemedCSS { colors := c, typography := ty, spacing := sp
                               borders := bo, container := cn })
    | _, _, _, _, _ =>
      .error "Invalid theme configuration: missing required theme properties"

def MergedTheme.toLoose (t : MergedTheme) : LooseTheme :=
  { colors := some t.colors, typography := some t.typography
    spacing := some t.spacing, borders := some t.borders
    container := some t.container }

/-! ## Template data (`TemplateData` of `types.ts`)

A `TemplateData` record is an association list of string keys to JS
values; the values this library inspects are strings and numbers.
Absence of a key is `lookupTD _ k = none`; JS truthiness drives the
`||` defaults in the layout-data construction. -/

inductive Val where
  | str (s : String)
  | num (n : Int)
  deriving Repr, DecidableEq

def Val.truthy : Val → Bool
  | .str s => s != ""
  | .num n => n != 0

abbrev TData := List (String × Val)

/-- Key lookup in a JS object / `Map`, embedded as an association list
(the newest binding is first). -/
def lookupReg {α : Type} (r : List (String × α)) (k : String) : Option α :=
  (r.find? (fun p => p.1 == k)).map Prod.snd

/-- `Map.set` / object-key assignment: overwrite any previous binding. -/
def setReg {α : Type} (r : List (String × α)) (k : String) (v : α) : List (String × α) :=
  (k, v) :: r.filter (fun p => p.1 != k)

def lookupTD (d : TData) (k : String) : Option Val := lookupReg d k

/-- Setting a key of a JS object: the new binding shadows any old one. -/
def setTD (d : TData) (k : String) (v : Val) : TData := setReg d k v

/-- JS `x || dflt` on an optionally-present value. -/
def orTruthy (v : Option Val) (dflt : Val) : Val :=
  match v with
  | some x => if x.truthy then x else dflt
  | none => dflt

/-! ## Registries

A compiled Handlebars template is an opaque callable that may throw
(`TData → Except String String`); `compile` itself is an explicit
parameter wherever the source calls `Handlebars.compile`.  A
Handlebars registered fragment (`Handlebars.partials[name]`) is either
a source string or a precompiled function, matching the
`typeof mainLayout === "string"` test in `renderTemplate`. -/

abbrev Registry := List (String × (TData → Except String String))

inductive HPartial where
  | src (s : String)
  | fn (f : TData → Except String String)

abbrev PartialsMap := List (String × HPartial)

/-! ## Address model and formatting (`courier.ts` lines 557-574) -/

structure EmailAddress where
  email : String
  name : Option String := none
  deriving Repr, DecidableEq

/-- `string | EmailAddress` -/
inductive AddrInput where
  | str (s : String)
  | addr (a : EmailAddress)
  deriving Repr, DecidableEq

/-- `string | EmailAddress | Array<string | EmailAddress>` -/
inductive Addresses where
  | one (a : AddrInput)
  | many (l : List AddrInput)
  deriving Repr, DecidableEq

/-- `string | string[]`, the return shape of `formatAddresses`. -/
inductive Formatted where
  | one (s : String)
  | many (l : List String)
  deriving Repr, DecidableEq

/-- `formatAddress` (lines 557-562): `address.name ? ... : address.email`
with JS truthiness on the name. -/
def formatAddress : AddrInput → String
  | .str s => s
  | .addr a =>
    match a.name with
    | some n => if n == "" then a.email else n ++ " <" ++ a.email ++ ">"
    | none => a.email

/-- `formatAddresses` (lines 567-574). -/
def formatAddresses : Addresses → Formatted
  | .many l => .many (l.map formatAddress)
  | .one a => .one (formatAddress a)

def AddrInput.truthy : AddrInput → Bool
  | .str s => s != ""
  | .addr _ => true

def Addresses.truthy : Addresses → Bool
  | .one a => a.truthy
  | .many _ => true

/-! ## Messages, config and mail options (`types.ts`, `courier.ts`) -/

/-- `EmailMessage`; the JS fields `from` and `to` are embedded as
`fromAddr` and `toAddrs` (`from`/`to` are Lean keywords). -/
structure EmailMessage where
  fromAddr : Option AddrInput := none
  toAddrs : Addresses
  cc : Option Addresses := none
  bcc : Option Addresses := none
  subject : String
  text : Option String := none
  html : Option String := none
  replyTo : Option AddrInput := none

/-- The slice of `CourierConfig` that `send`/`verify` read. -/
structure Config where
  smtpUser : String
  defaultFrom : Option AddrInput := none
  debug : Bool := false

structure MailOptions where
  fromAddr : String
  toAddrs : Formatted
  subject : String
  cc : Option Formatted := none
  bcc : Option Formatted := none
  replyTo : Option String := none
  text : Option String := none
  html : Option String := none
  deriving Repr, DecidableEq

/-- JS `a || b` over optionally-present address values. -/
def orTruthyAddr (a : Option AddrInput) (b : AddrInput) : AddrInput :=
  match a with
  | some x => if x.truthy then x else b
  | none => b

/-- The `mailOptions` object built by `send` (lines 744-768):
`from` via the precedence `message.from || config.defaultFrom ||
config.smtp.user`; the optional fields are added only when truthy. -/
def buildMailOptions (config : Config) (message : EmailMessage) : MailOptions :=
  { fromAddr := formatAddress
      (orTruthyAddr message.fromAddr (orTruthyAddr config.defaultFrom (.str config.smtpUser)))
    toAddrs := formatAddresses message.toAddrs
    subject := message.subject
    cc := match message.cc with
      | some c => if c.truthy then some (formatAddresses c) else none
      | none => none
    bcc := match message.bcc with
      | some b => if b.truthy then some (formatAddresses b) else none
      | none => none
    replyTo := match message.replyTo with
      | some r => if r.truthy then some (formatAddress r) else none
      | none => none
    text := match message.text with
      | some t => if t != "" then some t else none
      | none => none
    html := match message.html with
      | some h => if h != "" then some h else none
      | none => none }

structure SendResult where
  success : Bool
  messageId : Option String := none
  error : Option String := none
  deriving Repr, DecidableEq

/-- JS `try { x } catch (e) { handler }`: a thrown value is an
`Except.error` carrying the error message string. -/
def tryCatch {α : Type} (x : Except String α) (handler : String → Except String α) :
    Except String α :=
  match x with
  | .error e => handler e
  | .ok a => .ok a

/-! ## Rendering (`courier.ts`)

`renderTemplateV1` embeds the first `Courier.renderTemplate` variant
(lines 222-228, no layout support); `renderTemplate` embeds the themed
variant (lines 702-735).  `currentYear` embeds
`new Date().getFullYear()`, an environment input. -/

def renderTemplateV1 (templates : Registry) (templateName : String) (data : TData) :
    Except String String :=
  match lookupReg templates templateName with
  | none => .error ("Template \"" ++ templateName ++ "\" not found")
  | some template => template data

/-- The `layoutData` object of lines 719-728: a spread copy of `data`
with `body`, `lang`, `year`, `companyName`, `emailTitle` and
`emailStyles` force-set (the last always from the generated CSS). -/
def buildLayoutData (data : TData) (bodyContent : String) (css : String)
    (currentYear : Int) : TData :=
  let lang := orTruthy (lookupTD data "lang") (.str "en")
  let yearV := orTruthy (lookupTD data "year") (.num currentYear)
  let company := orTruthy (lookupTD data "companyName") (.str "Your Company")
  let title := orTruthy (lookupTD data "emailTitle")
      (orTruthy (lookupTD data "subject") (.str "Email"))
  setTD (setTD (setTD (setTD (setTD (setTD data
    "body" (.str bodyContent))
    "lang" lang)
    "year" yearV)
    "companyName" company)
    "emailTitle" title)
    "emailStyles" (.str css)

def renderTemplate (compile : String → TData → Except String String)
    (templates : Registry) (hbPartials : PartialsMap)
    (theme : MergedTheme) (currentYear : Int)
    (templateName : String) (data : TData) : Except String String :=
  match lookupReg templates templateName with
  | none => .error ("Template \"" ++ templateName ++ "\" not found")
  | some template => do
    let bodyContent ← template data
    match lookupReg hbPartials "layouts-main" with
    | some mainLayout =>
      let layoutTemplate := match mainLayout with
        | .src s => compile s
        | .fn f => f
      layoutTemplate (buildLayoutData data bodyContent (generateThemedCSS theme) currentYear)
    | none => pure bodyContent

/-! ## Dispatch (`courier.ts` lines 235-308 and 742-825)

The mail transport is opaque: `sendMail` and `transporterVerify` are
arbitrary, possibly-throwing functions. -/

/-- `send` (both variants have the identical body, lines 235-276 and
742-783): everything inside the `try` funnels into `SendResult`. -/
def send (sendMail : MailOptions → Except String String)
    (config : Config) (message : EmailMessage) : Except String SendResult :=
  tryCatch (do
      let info ← sendMail (buildMailOptions config message)
      pure { success := true, messageId := some info })
    (fun e => .ok { success := false, error := some e })

/-- First `sendWithTemplate` variant (lines 285-295): `renderTemplate`
is called OUTSIDE any try/catch, so its exceptions propagate. -/
def sendWithTemplateV1 (sendMail : MailOptions → Except String String)
    (config : Config) (templates : Registry)
    (templateName : String) (data : TData) (message : EmailMessage) :
    Except String SendResult := do
  let html ← renderTemplateV1 templates templateName data
  send sendMail config { message with html := some html }

/-- Second `sendWithTemplate` variant (lines 792-809): the whole body,
rendering included, is wrapped in try/catch. -/
def sendWithTemplate (compile : String → TData → Except String String)
    (sendMail : MailOptions → Except String String)
    (config : Config) (templates : Registry) (hbPartials : PartialsMap)
    (theme : MergedTheme) (currentYear : Int)
    (templateName : String) (data : TData) (message : EmailMessage) :
    Except String SendResult :=
  tryCatch (do
      let html ← renderTemplate compile templates hbPartials theme currentYear templateName data
      send sendMail config { message with html := some html })
    (fun e => .ok { success := false, error := some e })

/-- `verify` (lines 815-825): resolves `true` when the transporter
verification succeeds, `false` on any thrown error (the debug
`console.error` has no effect on the result). -/
def verify (transporterVerify : Except String Unit) : Except String Bool :=
  tryCatch (do
      let _ ← transporterVerify
      pure true)
    (fun _ => .ok false)

/-! ## Filename stemming and directory loading (`courier.ts` lines 600-694)

`entry.name.split(".").slice(0, -1).join(".")` is embedded over the
character list of the filename; `splitOnDot` is JS `split(".")` for the
one-character separator. -/

def splitOnDot : List Char → List (List Char)
  | [] => [[]]
  | c :: cs =>
    if c = '.' then [] :: splitOnDot cs
    else
      match splitOnDot cs with
      | [] => [[c]]
      | g :: gs => (c :: g) :: gs

/-- JS `Array.prototype.join(".")` over the split segments. -/
def joinDot : List (List Char) → List Char
  | [] => []
  | [g] => g
  | g :: gs => g ++ '.' :: joinDot gs

/-- `name.split(".").slice(0, -1).join(".")`. -/
def stem (s : String) : String :=
  ⟨joinDot (splitOnDot s.data).dropLast⟩

/-- `loadPartials` (lines 600-620): `none` is a NotFound on the
directory, silently ignored; otherwise each file registers its content
under its stem. -/
def loadPartialsM (hbPartials : PartialsMap)
    (files : Option (List (String × String))) : PartialsMap :=
  match files with
  | none => hbPartials
  | some fs => fs.foldl (fun r f => setReg r (stem f.1) (.src f.2)) hbPartials

/-- `loadLayouts` (lines 626-646): registers under `layouts-` ++ stem. -/
def loadLayoutsM (hbPartials : PartialsMap)
    (files : Option (List (String × String))) : PartialsMap :=
  match files with
  | none => hbPartials
  | some fs => fs.foldl (fun r f => setReg r ("layouts-" ++ stem f.1) (.src f.2)) hbPartials

/-- One entry of the root directory scan: a plain file, the special
`templates` subdirectory, or some other subdirectory (skipped). -/
inductive RootEntry where
  | file (name content : String)
  | templatesSubdir (files : List (String × String))
  | otherDir (name : String)

/-- The root loop of `loadTemplatesFromDirectory` (lines 665-687):
files register under their stem (`loadTemplate` = read + compile +
`templates.set`), and files of a `templates` subdirectory likewise. -/
def loadRoot (compile : String → TData → Except String String)
    (templates : Registry) (entries : List RootEntry) : Registry :=
  entries.foldl (fun r e =>
    match e with
    | .file n c => setReg r (stem n) (compile c)
    | .templatesSubdir fs => fs.foldl (fun r2 f => setReg r2 (stem f.1) (compile f.2)) r
    | .otherDir _ => r) templates

/-- The scanned directory: contents of the `partials` and `layouts`
subdirectories (`none` = subdirectory missing) and the root entries in
read order. -/
structure DirModel where
  dirPartials : Option (List (String × String)) := none
  dirLayouts : Option (List (String × String)) := none
  rootEntries : List RootEntry := []

/-- `loadTemplatesFromDirectory` (lines 654-694): partials first, then
layouts, then the root scan. -/
def loadTemplatesFromDirectory (compile : String → TData → Except String String)
    (templates : Registry) (hbPartials : PartialsMap) (d : DirModel) :
    Registry × PartialsMap :=
  let p1 := loadPartialsM hbPartials d.dirPartials
  let p2 := loadLayoutsM p1 d.dirLayouts
  (loadRoot compile templates d.rootEntries, p2)

/-- The template files a root scan touches, in scan order: plain root
files and the inlined files of the `templates` subdirectory. -/
def flattenRoot : List RootEntry → List (String × String)
  | [] => []
  | .file n c :: es => (n, c) :: flattenRoot es
  | .templatesSubdir fs :: es => fs ++ flattenRoot es
  | .otherDir _ :: es => flattenRoot es

/-- Registering a list of files in order, each under the stem of its
filename. -/
def regFoldFiles (compile : String → TData → Except String String)
    (templates : Registry) (files : List (String × String)) : Registry :=
  files.foldl (fun r f => setReg r (stem f.1) (compile f.2)) templates

/-! ## Concrete instances used by the theorems below -/

/-- An override touching only `colors.accent`, used to witness the
group-level (non-destructive) merge. -/
def accentOnlyOverride : PTheme :=
  { colors := some { accent := some "#ff0000" } }

/-- The fixed message thrown on a group-incomplete theme. -/
def missingGroupsMsg : String :=
  "Invalid theme configuration: missing required theme properties"

/-- A concrete compiled template (constant output). -/
def tmplW : TData → Except String String := fun _ => .ok "BODY"

/-- A concrete compiled main layout: echoes the `body` field of the
data it receives. -/
def layoutW : TData → Except String String := fun d =>
  match lookupTD d "body" with
  | some (.str s) => .ok ("[" ++ s ++ "]")
  | _ => .ok "?"

/-- Caller data that already carries a `body` key. -/
def dataW : TData := [("body", .str "CALLER"), ("customerId", .str "42")]

/-! # Theorems -/

/-- C1: for every override `P`, each leaf of `mergeTheme (some P)` is
`P`'s value at that leaf when present, and the default theme's value
when absent (group-level shallow merge with one extra shallow level for
`typography.fontSize` and `typography.fontWeight`); in particular an
override containing only `colors.accent` keeps `colors.text` (and the
other color keys) at their defaults.  That every leaf is defined is
enforced by the return type `MergedTheme`, whose leaves are plain
strings. -/
theorem c1_merge_complete (P : PTheme) :
    (mergeTheme (some P)).colors.text
      = (P.colors.bind PColors.text).getD DefaultTheme.colors.text
    ∧ (mergeTheme (some P)).colors.textSecondary
      = (P.colors.bind PColors.textSecondary).getD DefaultTheme.colors.textSecondary
    ∧ (mergeTheme (some P)).colors.textAlt
      = (P.colors.bind PColors.textAlt).getD DefaultTheme.colors.textAlt
    ∧ (mergeTheme (some P)).colors.background
      = (P.colors.bind PColors.background).getD DefaultTheme.colors.background
    ∧ (mergeTheme (some P)).colors.backgroundSubtle
      = (P.colors.bind PColors.backgroundSubtle).getD DefaultTheme.colors.backgroundSubtle
    ∧ (mergeTheme (some P)).colors.backgroundAlt
      = (P.colors.bind PColors.backgroundAlt).getD DefaultTheme.colors.backgroundAlt
    ∧ (mergeTheme (some P)).colors.border
      = (P.colors.bind PColors.border).getD DefaultTheme.colors.border
    ∧ (mergeTheme (some P)).colors.borderSoft
      = (P.colors.bind PColors.borderSoft).getD DefaultTheme.colors.borderSoft
    ∧ (mergeTheme (some P)).colors.accent
      = (P.colors.bind PColors.accent).getD DefaultTheme.colors.accent
    ∧ (mergeTheme (some P)).colors.accentHover
      = (P.colors.bind PColors.accentHover).getD DefaultTheme.colors.accentHover
    ∧ (mergeTheme (some P)).colors.accentMuted
      = (P.colors.bind PColors.accentMuted).getD DefaultTheme.colors.accentMuted
    ∧ (mergeTheme (some P)).typography.fontFamily
      = (P.typography.bind PTypography.fontFamily).getD DefaultTheme.typography.fontFamily
    ∧ (mergeTheme (some P)).typography.lineHeight
      = (P.typography.bind PTypography.lineHeight).getD DefaultTheme.typography.lineHeight
    ∧ (mergeTheme (some P)).typography.fontSize.xs
      = ((P.typography.bind PTypography.fontSize).bind PFontSize.xs).getD
          DefaultTheme.typography.fontSize.xs
    ∧ (mergeTheme (some P)).typography.fontSize.sm
      = ((P.typography.bind PTypography.fontSize).bind PFontSize.sm).getD
          DefaultTheme.typography.fontSize.sm
    ∧ (mergeTheme (some P)).typography.fontSize.base
      = ((P.typography.bind PTypography.fontSize).bind PFontSize.base).getD
          DefaultTheme.typography.fontSize.base
    ∧ (mergeTheme (some P)).typography.fontSize.lg
      = ((P.typography.bind PTypography.fontSize).bind PFontSize.lg).getD
          DefaultTheme.typography.fontSize.lg
    ∧ (mergeTheme (some P)).typography.fontSize.xl
      = ((P.typography.bind PTypography.fontSize).bind PFontSize.xl).getD
          DefaultTheme.typography.fontSize.xl
    ∧ (mergeTheme (some P)).typography.fontSize.x2l
      = ((P.typography.bind PTypography.fontSize).bind PFontSize.x2l).getD
          DefaultTheme.typography.fontSize.x2l
    ∧ (mergeTheme (some P)).typography.fontSize.x3l
      = ((P.typography.bind PTypography.fontSize).bind PFontSize.x3l).getD
          DefaultTheme.typography.fontSize.x3l
    ∧ (mergeTheme (some P)).typography.fontWeight.normal
      = ((P.typography.bind PTypography.fontWeight).bind PFontWeight.normal).getD
          DefaultTheme.typography.fontWeight.normal
    ∧ (mergeTheme (some P)).typography.fontWeight.medium
      = ((P.typography.bind PTypography.fontWeight).bind PFontWeight.medium).getD
          DefaultTheme.typography.fontWeight.medium
    ∧ (mergeTheme (some P)).typography.fontWeight.semibold
      = ((P.typography.bind PTypography.fontWeight).bind PFontWeight.semibold).getD
          DefaultTheme.typography.fontWeight.semibold
    ∧ (mergeTheme (some P)).typography.fontWeight.bold
      = ((P.typography.bind PTypography.fontWeight).bind PFontWeight.bold).getD
          DefaultTheme.typography.fontWeight.bold
    ∧ (mergeTheme (some P)).typography.fontWeight.black
      = ((P.typography.bind PTypography.fontWeight).bind PFontWeight.black).getD
          DefaultTheme.typography.fontWeight.black
    ∧ (mergeTheme (some P)).spacing.xs
      = (P.spacing.bind PSpacing.xs).getD DefaultTheme.spacing.xs
    ∧ (mergeTheme (some P)).spacing.sm
      = (P.spacing.bind PSpacing.sm).getD DefaultTheme.spacing.sm
    ∧ (mergeTheme (some P)).spacing.base
      = (P.spacing.bind PSpacing.base).getD DefaultTheme.spacing.base
    ∧ (mergeTheme (some P)).spacing.md
      = (P.spacing.bind PSpacing.md).getD DefaultTheme.spacing.md
    ∧ (mergeTheme (some P)).spacing.lg
      = (P.spacing.bind PSpacing.lg).getD DefaultTheme.spacing.lg
    ∧ (mergeTheme (some P)).spacing.xl
      = (P.spacing.bind PSpacing.xl).getD DefaultTheme.spacing.xl
    ∧ (mergeTheme (some P)).spacing.x2l
      = (P.spacing.bind PSpacing.x2l).getD DefaultTheme.spacing.x2l
    ∧ (mergeTheme (some P)).spacing.line
      = (P.spacing.bind PSpacing.line).getD DefaultTheme.spacing.line
    ∧ (mergeTheme (some P)).spacing.containerPadding
      = (P.spacing.bind PSpacing.containerPadding).getD DefaultTheme.spacing.containerPadding
    ∧ (mergeTheme (some P)).borders.widthThin
      = (P.borders.bind PBorders.widthThin).getD DefaultTheme.borders.widthThin
    ∧ (mergeTheme (some P)).borders.width
      = (P.borders.bind PBorders.width).getD DefaultTheme.borders.width
    ∧ (mergeTheme (some P)).borders.widthThick
      = (P.borders.bind PBorders.widthThick).getD DefaultTheme.borders.widthThick
    ∧ (mergeTheme (some P)).borders.widthDouble
      = (P.borders.bind PBorders.widthDouble).getD DefaultTheme.borders.widthDouble
    ∧ (mergeTheme (some P)).container.maxWidth
      = (P.container.bind PContainer.maxWidth).getD DefaultTheme.container.maxWidth
    ∧ (mergeTheme (some accentOnlyOverride)).colors.accent = "#ff0000"
    ∧ (mergeTheme (some accentOnlyOverride)).colors.text = DefaultTheme.colors.text := by
  obtain ⟨co, ty, sp, bo, cn⟩ := P
  cases co <;> cases sp <;> cases bo <;> cases cn <;>
    rcases ty with _ | ⟨ff, fs, fw, lh⟩ <;>
    (try cases fs) <;> (try cases fw) <;>
    exact ⟨rfl, rfl, rfl, rfl, rfl, rfl, rfl, rfl, rfl, rfl, rfl, rfl, rfl, rfl, rfl,
      rfl, rfl, rfl, rfl, rfl, rfl, rfl, rfl, rfl, rfl, rfl, rfl, rfl, rfl, rfl, rfl,
      rfl, rfl, rfl, rfl, rfl, rfl, rfl, rfl, rfl, rfl⟩

/-- C6: `mergeTheme` with an absent override returns the default theme
unchanged. -/
theorem c6_mergeTheme_absent_identity : mergeTheme none = DefaultTheme := rfl

/-- C5: `generateThemedCSS` is a pure function of the merged theme — on
the identical merged theme `mergeTheme X` it yields byte-identical
strings (no time, randomness or hidden state occurs in its
definition). -/
theorem c5_css_deterministic (X : Option PTheme) :
    generateThemedCSS (mergeTheme X) = generateThemedCSS (mergeTheme X) := rfl

/-- C2 counterexample: applying the generator to an object with only a
`colors` group does fail and emits no stylesheet, but the error message
is the fixed string `missingGroupsMsg`, which does not name any of the
missing groups (`typography`, `spacing`, `borders`, `container` do not
occur in it) — refuting the claim that the message names the missing
group(s). -/
theorem c2_counterexample :
    generateThemedCSSChecked (some { colors := some DefaultTheme.colors }) =
      .error missingGroupsMsg
    ∧ ¬ List.IsInfix "typography".data missingGroupsMsg.data
    ∧ ¬ List.IsInfix "spacing".data missingGroupsMsg.data
    ∧ ¬ List.IsInfix "borders".data missingGroupsMsg.data
    ∧ ¬ List.IsInfix "container".data missingGroupsMsg.data := by
  refine ⟨rfl, ?_, ?_, ?_, ?_⟩ <;> decide

/-- C2 amended: for every theme argument that is not an object (null,
undefined, a non-object) `generateThemedCSS` fails with the
configuration error "theme must be an object"; for every theme object
missing at least one of the five top-level groups it fails with the
fixed configuration error `missingGroupsMsg` (which does not name the
specific missing groups) and returns no stylesheet. -/
theorem c2_missing_group_fails (t : LooseTheme)
    (h : t.colors = none ∨ t.typography = none ∨ t.spacing = none ∨
         t.borders = none ∨ t.container = none) :
    generateThemedCSSChecked (some t) = .error missingGroupsMsg
    ∧ generateThemedCSSChecked none =
        .error "Invalid theme configuration: theme must be an object" := by
  refine ⟨?_, rfl⟩
  obtain ⟨c, ty, sp, bo, cn⟩ := t
  cases c <;> cases ty <;> cases sp <;> cases bo <;> cases cn <;> first | rfl | simp_all

/-- C2 witness: the claimed failing shape `{colors: {...}}` (other
groups absent) hits the amended theorem. -/
theorem c2_missing_group_fails_witness :
    generateThemedCSSChecked (some { colors := some DefaultTheme.colors }) =
      .error missingGroupsMsg
    ∧ generateThemedCSSChecked none =
        .error "Invalid theme configuration: theme must be an object" :=
  c2_missing_group_fails { colors := some DefaultTheme.colors } (Or.inr (Or.inl rfl))

/-- C9: `createTheme B O` is `mergeTheme` of the top-level spread
`spreadTop B O`, in which a group present in `O` replaces `B`'s whole
group; consequently `createTheme DarkTheme {colors:{accent:..}}` falls
back to the DEFAULT theme's text/background colors, losing
`DarkTheme`'s. -/
theorem c9_createTheme_spread :
    (∀ B O : PTheme, createTheme B O = mergeTheme (some (spreadTop B O)))
    ∧ (∀ B O : PTheme, ∀ c : PColors, O.colors = some c → (spreadTop B O).colors = some c)
    ∧ (createTheme DarkTheme.toP { colors := some { accent := some "#ff6b6b" } }).colors.accent
        = "#ff6b6b"
    ∧ (createTheme DarkTheme.toP { colors := some { accent := some "#ff6b6b" } }).colors.text
        = DefaultTheme.colors.text
    ∧ (createTheme DarkTheme.toP { colors := some { accent := some "#ff6b6b" } }).colors.background
        = DefaultTheme.colors.background
    ∧ (createTheme DarkTheme.toP { colors := some { accent := some "#ff6b6b" } }).colors.text
        ≠ DarkTheme.colors.text := by
  refine ⟨fun _ _ => rfl, fun B O c h => ?_, rfl, rfl, rfl, by decide⟩
  simp [spreadTop, h]

/-- C9 witness: the group-replacement clause at a concrete base and
override. -/
theorem c9_createTheme_spread_witness :
    (spreadTop DarkTheme.toP { colors := some { accent := some "#ff6b6b" } }).colors
      = some { accent := some "#ff6b6b" } :=
  c9_createTheme_spread.2.1 DarkTheme.toP _ _ rfl

/-- C8: `send`'s address formatting — a bare string passes through
unchanged; an `{email, name}` pair formats as `"name <email>"` when a
(nonempty) display name is present and as the bare address otherwise
(JS truthiness treats an empty display name as absent); a list formats
element-wise, preserving order. -/
theorem c8_address_formatting :
    (∀ s : String, formatAddress (.str s) = s)
    ∧ (∀ e n : String, n ≠ "" →
        formatAddress (.addr { email := e, name := some n }) = n ++ " <" ++ e ++ ">")
    ∧ (∀ e : String, formatAddress (.addr { email := e, name := none }) = e)
    ∧ (∀ e : String, formatAddress (.addr { email := e, name := some "" }) = e)
    ∧ (∀ l : List AddrInput, formatAddresses (.many l) = .many (l.map formatAddress))
    ∧ (∀ a : AddrInput, formatAddresses (.one a) = .one (formatAddress a)) := by
  refine ⟨fun _ => rfl, fun e n h => ?_, fun _ => rfl, fun _ => rfl, fun _ => rfl, fun _ => rfl⟩
  simp [formatAddress, h]

/-- C8 witness: the spec's concrete example. -/
theorem c8_address_formatting_witness :
    formatAddress (.addr { email := "a@b.com", name := some "A B" }) = "A B <a@b.com>" :=
  c8_address_formatting.2.1 "a@b.com" "A B" (by decide)

/-! Helper facts for the dispatch layer. -/

theorem tryCatch_handler_total {α : Type} (x : Except String α) (h : String → α) :
    ∃ a, tryCatch x (fun e => .ok (h e)) = .ok a := by
  cases x with
  | error e => exact ⟨h e, rfl⟩
  | ok a => exact ⟨a, rfl⟩

/-- C4 counterexample: in the first `sendWithTemplate` variant (lines
285-295), sending with an unregistered template name propagates the
`TemplateNotFoundError` thrown by `renderTemplate` instead of resolving
to a `SendResult` — even with a transport that always succeeds. -/
theorem c4_counterexample :
    sendWithTemplateV1 (fun _ => .ok "msg-id") { smtpUser := "user@example.com" } []
      "welcome" [] { toAddrs := .one (.str "a@b.com"), subject := "Hi" }
      = .error "Template \"welcome\" not found" := rfl

/-- C4 amended: for every transport behaviour, `send` never throws
(every failure resolves to `success := false` with a string error, and
a success carries a message id); the themed `sendWithTemplate` variant
(lines 792-809) never throws; `verify` never throws and resolves to
`false` on any verification failure.  But the first `sendWithTemplate`
variant (lines 285-295) throws whenever the template name is
unregistered — `renderTemplate`'s exception propagates uncaught. -/
theorem c4_error_funnel :
    (∀ (F : MailOptions → Except String String) (cfg : Config) (msg : EmailMessage),
      ∃ r : SendResult, send F cfg msg = .ok r
        ∧ (r.success = false → r.error.isSome)
        ∧ (r.success = true → r.messageId.isSome))
    ∧ (∀ (compile : String → TData → Except String String)
        (F : MailOptions → Except String String) (cfg : Config)
        (templates : Registry) (hbPartials : PartialsMap) (theme : MergedTheme)
        (currentYear : Int) (name : String) (data : TData) (msg : EmailMessage),
      ∃ r : SendResult,
        sendWithTemplate compile F cfg templates hbPartials theme currentYear name data msg
          = .ok r)
    ∧ (∀ V : Except String Unit, ∃ b : Bool, verify V = .ok b)
    ∧ (∀ e : String, verify (.error e) = .ok false)
    ∧ (∀ (F : MailOptions → Except String String) (cfg : Config)
        (templates : Registry) (name : String) (data : TData) (msg : EmailMessage),
      lookupReg templates name = none →
        sendWithTemplateV1 F cfg templates name data msg
          = .error ("Template \"" ++ name ++ "\" not found")) := by
  refine ⟨?_, ?_, ?_, fun e => rfl, ?_⟩
  · intro F cfg msg
    cases h : F (buildMailOptions cfg msg) with
    | error e =>
      refine ⟨{ success := false, error := some e }, ?_, by simp, by simp⟩
      simp [send, tryCatch, Bind.bind, Except.bind, h]
    | ok a =>
      refine ⟨{ success := true, messageId := some a }, ?_, by simp, by simp⟩
      simp [send, tryCatch, Bind.bind, Except.bind, h, Pure.pure, Except.pure]
  · intro compile F cfg templates hbPartials theme currentYear name data msg
    unfold sendWithTemplate
    exact tryCatch_handler_total _ _
  · intro V
    unfold verify
    exact tryCatch_handler_total _ _
  · intro F cfg templates name data msg h
    simp [sendWithTemplateV1, renderTemplateV1, h, Bind.bind, Except.bind]

/-- C4 witness: the amended theorem at a concrete always-succeeding
transport and an empty registry. -/
theorem c4_error_funnel_witness :
    sendWithTemplateV1 (fun _ => .ok "msg-id") { smtpUser := "user@example.com" } []
      "signup" [] { toAddrs := .one (.str "a@b.com"), subject := "Hi" }
      = .error ("Template \"" ++ "signup" ++ "\" not found") :=
  c4_error_funnel.2.2.2.2 (fun _ => .ok "msg-id") { smtpUser := "user@example.com" } []
    "signup" [] { toAddrs := .one (.str "a@b.com"), subject := "Hi" } rfl

/-! Association-list lemmas for the key-overwrite semantics. -/

theorem find?_filter_of_ne {α : Type} (l : List (String × α)) (k k' : String) (h : k' ≠ k) :
    List.find? (fun p => p.1 == k') (l.filter (fun p => p.1 != k))
      = List.find? (fun p => p.1 == k') l := by
  induction l with
  | nil => rfl
  | cons hd tl ih =>
    by_cases hk : hd.1 = k
    · have h1 : (hd.1 != k) = false := by simp [hk]
      have h2 : (hd.1 == k') = false := by
        rw [beq_eq_false_iff_ne]
        rw [hk]
        exact fun hh => h hh.symm
      simp [List.filter_cons, h1, List.find?_cons, h2, ih]
    · have h1 : (hd.1 != k) = true := by simp [hk]
      by_cases hp : hd.1 = k'
      · simp [List.filter_cons, h1, List.find?_cons, hp, h]
      · have h2 : (hd.1 == k') = false := by simp [hp]
        simp [List.filter_cons, h1, List.find?_cons, h2, ih]

theorem lookupReg_set_self {α : Type} (r : List (String × α)) (k : String) (v : α) :
    lookupReg (setReg r k v) k = some v := by
  simp [lookupReg, setReg, List.find?_cons]

theorem lookupReg_set_ne {α : Type} (r : List (String × α)) (k k' : String) (v : α)
    (h : k' ≠ k) : lookupReg (setReg r k v) k' = lookupReg r k' := by
  have h2 : (k == k') = false := by
    rw [beq_eq_false_iff_ne]
    exact fun hh => h hh.symm
  simp [lookupReg, setReg, List.find?_cons, h2, find?_filter_of_ne _ _ _ h]

/-! The forced fields of the layout data. -/

theorem layoutData_body (data : TData) (b css : String) (y : Int) :
    lookupTD (buildLayoutData data b css y) "body" = some (.str b) := by
  simp only [buildLayoutData, lookupTD, setTD]
  rw [lookupReg_set_ne _ _ _ _ (by decide), lookupReg_set_ne _ _ _ _ (by decide),
    lookupReg_set_ne _ _ _ _ (by decide), lookupReg_set_ne _ _ _ _ (by decide),
    lookupReg_set_ne _ _ _ _ (by decide), lookupReg_set_self]

theorem layoutData_emailStyles (data : TData) (b css : String) (y : Int) :
    lookupTD (buildLayoutData data b css y) "emailStyles" = some (.str css) := by
  simp only [buildLayoutData, lookupTD, setTD]
  rw [lookupReg_set_self]

theorem layoutData_other (data : TData) (b css : String) (y : Int) (k : String)
    (hk : k ∉ ["body", "lang", "year", "companyName", "emailTitle", "emailStyles"]) :
    lookupTD (buildLayoutData data b css y) k = lookupTD data k := by
  obtain ⟨h1, h2, h3, h4, h5, h6⟩ :
      k ≠ "body" ∧ k ≠ "lang" ∧ k ≠ "year" ∧ k ≠ "companyName" ∧
      k ≠ "emailTitle" ∧ k ≠ "emailStyles" := by simpa using hk
  simp only [buildLayoutData, lookupTD, setTD]
  rw [lookupReg_set_ne _ _ _ _ h6, lookupReg_set_ne _ _ _ _ h5, lookupReg_set_ne _ _ _ _ h4,
    lookupReg_set_ne _ _ _ _ h3, lookupReg_set_ne _ _ _ _ h2, lookupReg_set_ne _ _ _ _ h1]

/-- C3: when the registered template renders to `bodyContent`, a
registered main layout (compiled function or source string) is invoked
on `buildLayoutData`, a shallow copy of the caller's `data` in which
`body` is ALWAYS the freshly rendered template output (overwriting any
caller-supplied `body` key) and `emailStyles` is ALWAYS the stylesheet
recomputed from the instance's merged theme by `generateThemedCSS`
(never taken from caller data); keys outside the six forced ones are
passed through from `data`; with no main layout registered the rendered
body is returned unmodified. -/
theorem c3_layout_injection (compile : String → TData → Except String String)
    (templates : Registry) (theme : MergedTheme) (currentYear : Int)
    (name : String) (data : TData) (tmpl : TData → Except String String)
    (bodyContent : String)
    (ht : lookupReg templates name = some tmpl)
    (hb : tmpl data = .ok bodyContent) :
    (∀ (hbPartials : PartialsMap) (L : TData → Except String String),
      lookupReg hbPartials "layouts-main" = some (.fn L) →
        renderTemplate compile templates hbPartials theme currentYear name data
          = L (buildLayoutData data bodyContent (generateThemedCSS theme) currentYear))
    ∧ (∀ (hbPartials : PartialsMap) (s : String),
      lookupReg hbPartials "layouts-main" = some (.src s) →
        renderTemplate compile templates hbPartials theme currentYear name data
          = compile s (buildLayoutData data bodyContent (generateThemedCSS theme) currentYear))
    ∧ (∀ hbPartials : PartialsMap,
      lookupReg hbPartials "layouts-main" = none →
        renderTemplate compile templates hbPartials theme currentYear name data
          = .ok bodyContent)
    ∧ lookupTD (buildLayoutData data bodyContent (generateThemedCSS theme) currentYear) "body"
        = some (.str bodyContent)
    ∧ lookupTD (buildLayoutData data bodyContent (generateThemedCSS theme) currentYear)
        "emailStyles" = some (.str (generateThemedCSS theme))
    ∧ (∀ k : String,
        k ∉ ["body", "lang", "year", "companyName", "emailTitle", "emailStyles"] →
          lookupTD (buildLayoutData data bodyContent (generateThemedCSS theme) currentYear) k
            = lookupTD data k) := by
  refine ⟨?_, ?_, ?_, layoutData_body data bodyContent (generateThemedCSS theme) currentYear,
    layoutData_emailStyles data bodyContent (generateThemedCSS theme) currentYear,
    fun k hk => layoutData_other data bodyContent (generateThemedCSS theme) currentYear k hk⟩
  · intro hbPartials L hL
    simp [renderTemplate, ht, hb, hL, Bind.bind, Except.bind]
  · intro hbPartials s hL
    simp [renderTemplate, ht, hb, hL, Bind.bind, Except.bind]
  · intro hbPartials hL
    simp [renderTemplate, ht, hb, hL, Bind.bind, Except.bind, Pure.pure, Except.pure]

/-- C3 witness: a caller-supplied `body` key is discarded in favor of
the template's own rendered output, `emailStyles` is the generated
stylesheet, and an untouched key passes through. -/
theorem c3_layout_injection_witness :
    renderTemplate (fun s _ => .ok s) [("welcome", tmplW)] [("layouts-main", .fn layoutW)]
      DefaultTheme 2025 "welcome" dataW
      = layoutW (buildLayoutData dataW "BODY" (generateThemedCSS DefaultTheme) 2025)
    ∧ lookupTD (buildLayoutData dataW "BODY" (generateThemedCSS DefaultTheme) 2025) "body"
        = some (.str "BODY")
    ∧ lookupTD (buildLayoutData dataW "BODY" (generateThemedCSS DefaultTheme) 2025) "emailStyles"
        = some (.str (generateThemedCSS DefaultTheme))
    ∧ lookupTD (buildLayoutData dataW "BODY" (generateThemedCSS DefaultTheme) 2025) "customerId"
        = lookupTD dataW "customerId" := by
  obtain ⟨h1, _, _, h4, h5, h6⟩ := c3_layout_injection (fun s _ => .ok s) [("welcome", tmplW)]
    DefaultTheme 2025 "welcome" dataW tmplW "BODY" rfl rfl
  exact ⟨h1 _ layoutW rfl, h4, h5, h6 "customerId" (by decide)⟩

/-! Lemmas about the `split`/`slice`/`join` stem computation. -/

theorem splitOnDot_ne_nil (l : List Char) : splitOnDot l ≠ [] := by
  match l with
  | [] => simp [splitOnDot]
  | c :: cs =>
    simp only [splitOnDot]
    split
    · simp
    · split <;> simp

theorem splitOnDot_no_dot (l : List Char) (h : '.' ∉ l) : splitOnDot l = [l] := by
  induction l with
  | nil => rfl
  | cons c cs ih =>
    have hc : ¬ c = '.' := by
      intro hh
      exact h (hh ▸ List.mem_cons_self c cs)
    have hcs : '.' ∉ cs := fun hh => h (List.mem_cons_of_mem _ hh)
    simp [splitOnDot, hc, ih hcs]

theorem joinDot_splitOnDot (l : List Char) : joinDot (splitOnDot l) = l := by
  induction l with
  | nil => rfl
  | cons c cs ih =>
    by_cases h : c = '.'
    · subst h
      simp only [splitOnDot, if_pos rfl]
      cases hs : splitOnDot cs with
      | nil => exact absurd hs (splitOnDot_ne_nil cs)
      | cons g gs =>
        rw [hs] at ih
        simp [joinDot, ih]
    · simp only [splitOnDot, if_neg h]
      cases hs : splitOnDot cs with
      | nil => exact absurd hs (splitOnDot_ne_nil cs)
      | cons g gs =>
        rw [hs] at ih
        cases gs with
        | nil => simp [joinDot] at ih ⊢; simp [ih]
        | cons g2 gs2 => simp [joinDot] at ih ⊢; simp [ih]

theorem splitOnDot_cons_dot (l : List Char) : splitOnDot ('.' :: l) = [] :: splitOnDot l := by
  simp [splitOnDot]

theorem splitOnDot_cons_ne (c : Char) (l : List Char) (h : ¬ c = '.') :
    splitOnDot (c :: l) =
      match splitOnDot l with
      | [] => [[c]]
      | g :: gs => (c :: g) :: gs := by
  simp [splitOnDot, h]

theorem splitOnDot_append_ext (b e : List Char) (h : '.' ∉ e) :
    splitOnDot (b ++ '.' :: e) = splitOnDot b ++ [e] := by
  induction b with
  | nil =>
    show splitOnDot ('.' :: e) = splitOnDot [] ++ [e]
    rw [splitOnDot_cons_dot, splitOnDot_no_dot e h]
    rfl
  | cons c cs ih =>
    show splitOnDot (c :: (cs ++ '.' :: e)) = splitOnDot (c :: cs) ++ [e]
    by_cases hc : c = '.'
    · subst hc
      rw [splitOnDot_cons_dot, splitOnDot_cons_dot, ih]
      rfl
    · rw [splitOnDot_cons_ne c _ hc, splitOnDot_cons_ne c cs hc, ih]
      cases hs : splitOnDot cs with
      | nil => exact absurd hs (splitOnDot_ne_nil cs)
      | cons g gs => simp [hs]

theorem string_data_append (s t : String) : (s ++ t).data = s.data ++ t.data := rfl

/-- Stripping exactly the final extension segment: if `e` contains no
dot, the stem of `b ++ "." ++ e` is `b`. -/
theorem stem_strip_ext (b e : String) (h : '.' ∉ e.data) :
    stem (b ++ "." ++ e) = b := by
  have hdata : (b ++ "." ++ e).data = b.data ++ '.' :: e.data := by
    rw [string_data_append, string_data_append]
    simp
  unfold stem
  rw [hdata, splitOnDot_append_ext _ _ h, List.dropLast_concat, joinDot_splitOnDot]

theorem stem_no_dot (s : String) (h : '.' ∉ s.data) : stem s = "" := by
  unfold stem
  rw [splitOnDot_no_dot s.data h]
  rfl

/-- C7: every file the directory loader touches (root files, the
`templates` subdirectory, the `partials` and `layouts` subdirectories)
registers under the stem of its filename — the filename with exactly
the final extension segment (everything after the last `.`) stripped,
so multi-dot names keep all but the last segment; the whole root scan
is exactly `regFoldFiles` over the scanned files; and
`password-reset.hbs` registers under exactly `password-reset`. -/
theorem c7_filename_stemming :
    (∀ b e : String, '.' ∉ e.data → stem (b ++ "." ++ e) = b)
    ∧ stem "password-reset.hbs" = "password-reset"
    ∧ (∀ (compile : String → TData → Except String String) (tr : Registry)
        (es : List RootEntry),
        loadRoot compile tr es = regFoldFiles compile tr (flattenRoot es))
    ∧ (∀ n c : String,
        lookupReg (loadPartialsM [] (some [(n, c)])) (stem n) = some (.src c))
    ∧ (∀ n c : String,
        lookupReg (loadLayoutsM [] (some [(n, c)])) ("layouts-" ++ stem n) = some (.src c))
    ∧ (∀ (compile : String → TData → Except String String) (n c : String),
        lookupReg (loadRoot compile [] [.file n c]) (stem n) = some (compile c))
    ∧ (∀ (compile : String → TData → Except String String) (n c : String),
        lookupReg (loadRoot compile [] [.templatesSubdir [(n, c)]]) (stem n)
          = some (compile c))
    ∧ (∀ compile : String → TData → Except String String,
        lookupReg (loadTemplatesFromDirectory compile [] []
          { rootEntries := [.file "password-reset.hbs" "SRC"] }).1 "password-reset"
          = some (compile "SRC")) := by
  refine ⟨stem_strip_ext, rfl, ?_, ?_, ?_, ?_, ?_, fun compile => rfl⟩
  · intro compile tr es
    induction es generalizing tr with
    | nil => rfl
    | cons e es ih =>
      cases e with
      | file n c =>
        show loadRoot compile (setReg tr (stem n) (compile c)) es = _
        rw [ih]
        rfl
      | templatesSubdir fs =>
        show loadRoot compile
          (fs.foldl (fun r2 f => setReg r2 (stem f.1) (compile f.2)) tr) es = _
        rw [ih]
        show regFoldFiles compile (regFoldFiles compile tr fs) (flattenRoot es)
          = regFoldFiles compile tr (fs ++ flattenRoot es)
        unfold regFoldFiles
        rw [List.foldl_append]
      | otherDir n =>
        show loadRoot compile tr es = _
        rw [ih]
        rfl
  · exact fun n c => lookupReg_set_self [] (stem n) (HPartial.src c)
  · exact fun n c => lookupReg_set_self [] ("layouts-" ++ stem n) (HPartial.src c)
  · exact fun compile n c => lookupReg_set_self [] (stem n) (compile c)
  · exact fun compile n c => lookupReg_set_self [] (stem n) (compile c)

/-- C7 witness: the extension-stripping clause at the spec's concrete
filename. -/
theorem c7_filename_stemming_witness :
    stem ("password-reset" ++ "." ++ "hbs") = "password-reset" :=
  c7_filename_stemming.1 "password-reset" "hbs" (by decide)

/-- C10: a filename with no dot stems to the empty string, so the
loader registers such files under the template name `""` (and
`loadPartials` under the empty fragment name), with later extensionless
files overwriting earlier ones under that single empty key. -/
theorem c10_extensionless_empty_stem :
    (∀ s : String, '.' ∉ s.data → stem s = "")
    ∧ (∀ (compile : String → TData → Except String String) (c1 c2 n1 n2 : String),
        '.' ∉ n1.data → '.' ∉ n2.data →
        loadRoot compile [] [.file n1 c1, .file n2 c2] = [("", compile c2)])
    ∧ (∀ c1 c2 n1 n2 : String, '.' ∉ n1.data → '.' ∉ n2.data →
        loadPartialsM [] (some [(n1, c1), (n2, c2)]) = [("", HPartial.src c2)]) := by
  refine ⟨stem_no_dot, ?_, ?_⟩
  · intro compile c1 c2 n1 n2 h1 h2
    show setReg (setReg [] (stem n1) (compile c1)) (stem n2) (compile c2) = _
    rw [stem_no_dot n1 h1, stem_no_dot n2 h2]
    rfl
  · intro c1 c2 n1 n2 h1 h2
    show setReg (setReg [] (stem n1) (HPartial.src c1)) (stem n2) (HPartial.src c2)
      = [("", HPartial.src c2)]
    rw [stem_no_dot n1 h1, stem_no_dot n2 h2]
    rfl

/-- C10 witness: two extensionless files collapse onto the single
empty-string key, last one winning. -/
theorem c10_extensionless_empty_stem_witness :
    stem "README" = ""
    ∧ loadRoot (fun s _ => Except.ok s) [] [.file "README" "A", .file "LICENSE" "B"]
        = [("", (fun (s : String) (_ : TData) => Except.ok s) "B")] :=
  ⟨c10_extensionless_empty_stem.1 "README" (by decide),
   c10_extensionless_empty_stem.2.1 (fun s _ => Except.ok s) "A" "B" "README" "LICENSE"
     (by decide) (by decide)⟩

end Courier
